import Mathlib

set_option linter.unusedVariables false

namespace HeadlessProxySpec

/-! Shallow embedding of the caddy-headless-proxy module.

The cache component is embedded from the cache source file of the repository
(the implementation at src/headlessproxy_test.go lines 124-286: `getCacheKey`,
`getCachedResponse`, `setCachedResponse`, `cleanupCache`); the handler,
browser pool and provisioning are embedded from src/unnamed/part_000
(`getBrowser`, `returnBrowser`, `Provision`, `ServeHTTP`); the health check is
embedded from the monitoring source file (src/headlessproxy_test.go lines
408-436, `checkBrowsersHealth`); `detectContentType` from src/utils.go.

Conventions: Go `time.Time` values are integers (seconds); Go `int` is `Int`;
Go maps are association lists with first-match lookup; the md5-hex digest of
the cache key is an opaque parameter `digest : String → String`; header keys
are taken to be already in canonical MIME form, so `Header.Get` is exact
lookup. -/

/-- HTTP headers, as in Go `net/http.Header`: header key to list of values. -/
abbrev Headers := List (String × List String)

/-- Go `Header.Get`: the first value for the key, or `""` when absent. -/
def hGet (hs : Headers) (k : String) : String :=
  match hs.lookup k with
  | some (v :: _) => v
  | _ => ""

/-- Go `Header.Set`: replace all values of the key by a single value. -/
def hSet (hs : Headers) (k v : String) : Headers :=
  (k, [v]) :: hs.filter (fun kv => !(kv.1 == k))

/-- Go `Header.Add`: append a value to the key. -/
def hAdd (hs : Headers) (k v : String) : Headers :=
  match hs.lookup k with
  | some vs => (k, vs ++ [v]) :: hs.filter (fun kv => !(kv.1 == k))
  | none => (k, [v]) :: hs

/-- An inbound request: `r.Method`, `r.URL.String()`, `r.Header`, and
`r.Cookies()` as name/value pairs in the order of the Cookie header. -/
structure Request where
  method : String
  url : String
  header : Headers
  cookies : List (String × String)
  deriving Repr, DecidableEq

/-- The module configuration fields of `HeadlessProxy`
(src/unnamed/part_000 lines 34-77); the mutable pool/cache state is passed
explicitly to the operations below. -/
structure HeadlessProxy where
  Upstream : String := ""
  Timeout : Int := 0
  UserAgent : String := ""
  EnableJS : Bool := false
  ForwardCookies : Bool := false
  ForwardHeaders : List String := []
  CacheTTL : Int := 0
  MaxBrowsers : Int := 0
  OptimizeResources : Bool := false
  CompressImages : Bool := false
  MinifyContent : Bool := false
  deriving Repr, DecidableEq

/-- `cacheEntry` (cache source file): content bytes, headers, status code and
expiry instant. -/
structure CacheEntry where
  content : String
  headers : Headers
  statusCode : Int
  expires : Int
  deriving Repr, DecidableEq

/-- The cache map `map[string]cacheEntry`. -/
abbrev Cache := List (String × CacheEntry)

/-- Go map assignment `h.cache[key] = entry`. -/
def cacheInsert (c : Cache) (k : String) (e : CacheEntry) : Cache :=
  (k, e) :: c.filter (fun kv => !(kv.1 == k))

/-- Substring search on character lists (helper for `goContains`). -/
def charsContain (pat : List Char) : List Char → Bool
  | [] => pat.isEmpty
  | c :: rest => pat.isPrefixOf (c :: rest) || charsContain pat rest

/-- Go `strings.Contains` (true when the pattern occurs in the string; the
empty pattern is contained in everything). -/
def goContains (s pat : String) : Bool :=
  charsContain pat.data s.data

/-- `cleanupCache` (cache source file lines 272-286): drop every entry whose
expiry lies strictly in the past. -/
def cleanupCache (now : Int) (c : Cache) : Cache :=
  c.filter (fun kv => decide (now ≤ kv.2.expires))

/-- The fixed allow-list of request headers hashed into the cache key
(`headerKeys` in `getCacheKey`). -/
def headerAllowList : List String := ["Accept-Language", "User-Agent"]

/-- The fingerprint string built by `getCacheKey` (cache source file lines
143-174) before it is hashed: URL, then each non-empty allow-listed header as
`|Key:value`, then - if cookie forwarding is on and there are cookies -
`|cookies:` and the `&`-joined `name=value` pairs in request order. -/
def getCacheKeyString (h : HeadlessProxy) (r : Request) : String :=
  let key := r.url
  let key := headerAllowList.foldl (fun key hk =>
    let value := hGet r.header hk
    if value = "" then key else key ++ ("|" ++ hk ++ ":" ++ value)) key
  if h.ForwardCookies then
    let cookies := r.cookies.map (fun c => c.1 ++ "=" ++ c.2)
    if cookies ≠ [] then key ++ ("|cookies:" ++ String.intercalate "&" cookies)
    else key
  else key

/-- `getCacheKey`: `""` for any non-GET method, otherwise the digest of the
fingerprint string (`digest` stands for md5 + hex encoding). -/
def getCacheKey (digest : String → String) (h : HeadlessProxy) (r : Request) :
    String :=
  if r.method ≠ "GET" then "" else digest (getCacheKeyString h r)

/-- `getCachedResponse` (cache source file lines 178-211): miss when caching
is disabled, when the key is empty, when the entry is absent or expired;
otherwise the stored content/headers/status. -/
def getCachedResponse (digest : String → String) (h : HeadlessProxy)
    (now : Int) (r : Request) (cache : Cache) :
    Option (String × Headers × Int) :=
  if h.CacheTTL ≤ 0 then none
  else
    let key := getCacheKey digest h r
    if key = "" then none
    else
      match cache.lookup key with
      | none => none
      | some entry =>
        if entry.expires < now then none
        else some (entry.content, entry.headers, entry.statusCode)

/-- `setCachedResponse` (cache source file lines 214-269): skip when caching
is disabled or the status is not 2xx, when the method is not GET, when the key
is empty, or when the response carries `Cache-Control: no-store` or
`no-cache`; otherwise store the entry and, if the cache then holds more than
1000 entries, run `cleanupCache`. -/
def setCachedResponse (digest : String → String) (h : HeadlessProxy)
    (now : Int) (r : Request) (content : String) (headers : Headers)
    (statusCode : Int) (cache : Cache) : Cache :=
  if h.CacheTTL ≤ 0 ∨ statusCode < 200 ∨ 300 ≤ statusCode then cache
  else if r.method ≠ "GET" then cache
  else
    let key := getCacheKey digest h r
    if key = "" then cache
    else
      let cacheControl := hGet headers "Cache-Control"
      if cacheControl ≠ "" ∧
          (goContains cacheControl "no-store" = true ∨
           goContains cacheControl "no-cache" = true) then cache
      else
        let entry : CacheEntry :=
          { content := content, headers := headers, statusCode := statusCode,
            expires := now + h.CacheTTL }
        let cache2 := cacheInsert cache key entry
        if 1000 < cache2.length then cleanupCache now cache2 else cache2

/-- Browser handles are identified by numeric ids. -/
abbrev Browser := Nat

/-- `getBrowser` (src/unnamed/part_000 lines 177-190): take the last pooled
browser if the pool is non-empty, else use the result of `createBrowser`
(`created`; `none` models a failed launch/connect). Returns the handed-out
browser and the remaining pool. -/
def getBrowser (pool : List Browser) (created : Option Browser) :
    Option Browser × List Browser :=
  if pool.isEmpty then (created, pool) else (pool.getLast?, pool.dropLast)

/-- `returnBrowser` (src/unnamed/part_000 lines 193-210): when the pool is at
or above `MaxBrowsers` the browser is closed (second component) and not
retained; otherwise it is appended to the pool. -/
def returnBrowser (maxBrowsers : Int) (pool : List Browser) (b : Browser) :
    List Browser × List Browser :=
  if maxBrowsers ≤ (pool.length : Int) then (pool, [b])
  else (pool ++ [b], [])

/-- One pool operation: an acquisition (with the engine's creation result for
the empty-pool case) or a release. -/
inductive PoolOp where
  | get (created : Option Browser)
  | put (b : Browser)
  deriving Repr, DecidableEq

/-- Run a sequence of `getBrowser`/`returnBrowser` operations on a pool. -/
def runPoolOps (maxBrowsers : Int) : List PoolOp → List Browser → List Browser
  | [], pool => pool
  | PoolOp.get created :: ops, pool =>
    runPoolOps maxBrowsers ops (getBrowser pool created).2
  | PoolOp.put b :: ops, pool =>
    runPoolOps maxBrowsers ops (returnBrowser maxBrowsers pool b).1

/-- Result of one `checkBrowsersHealth` cycle: the healthy/unhealthy counts
it returns, the pool after in-place replacement, and the browsers closed. -/
structure HealthResult where
  healthyCount : Nat
  unhealthyCount : Nat
  pool : List Browser
  closed : List Browser
  deriving Repr, DecidableEq

/-- The loop body of `checkBrowsersHealth` (monitoring source file,
src/headlessproxy_test.go lines 409-436) from slot index `i` on: a healthy
browser is kept; an unhealthy one is closed and `createBrowser` (`create i`)
is attempted - on success the new browser replaces it in place, on failure
the slot is left as it was (still holding the closed browser). -/
def checkBrowsersHealthAux (healthy : Browser → Bool)
    (create : Nat → Option Browser) : Nat → List Browser → HealthResult
  | _, [] => { healthyCount := 0, unhealthyCount := 0, pool := [], closed := [] }
  | i, b :: rest =>
    let res := checkBrowsersHealthAux healthy create (i + 1) rest
    if healthy b then
      { res with healthyCount := res.healthyCount + 1, pool := b :: res.pool }
    else
      match create i with
      | some nb =>
        { res with unhealthyCount := res.unhealthyCount + 1,
                   pool := nb :: res.pool, closed := b :: res.closed }
      | none =>
        { res with unhealthyCount := res.unhealthyCount + 1,
                   pool := b :: res.pool, closed := b :: res.closed }

/-- `checkBrowsersHealth`: probe every pooled browser (`healthy` models
`isBrowserHealthy`) and replace the unhealthy ones in place. -/
def checkBrowsersHealth (healthy : Browser → Bool)
    (create : Nat → Option Browser) (pool : List Browser) : HealthResult :=
  checkBrowsersHealthAux healthy create 0 pool

/-- The default User-Agent set by `Provision`. -/
def defaultUserAgent : String :=
  "Mozilla/5.0 (Windows NT 10.0; Win64; x64) AppleWebKit/537.36 (KHTML, like Gecko) Chrome/91.0.4472.124 Safari/537.36"

/-- `Provision` (src/unnamed/part_000 lines 96-136), configuration part:
default the timeout to 30, the user agent, force `EnableJS` on whenever it is
false, and default `MaxBrowsers` to 5. The effectful parts (logger, cache map
allocation, initial pool) act on the state passed separately to `ServeHTTP`
and are not folded into the configuration. -/
def Provision (h : HeadlessProxy) : HeadlessProxy :=
  let h := if h.Timeout ≤ 0 then { h with Timeout := 30 } else h
  let h := if h.UserAgent = "" then { h with UserAgent := defaultUserAgent }
    else h
  let h := if h.EnableJS = false then { h with EnableJS := true } else h
  if h.MaxBrowsers ≤ 0 then { h with MaxBrowsers := 5 } else h

/-- Observable steps of one `ServeHTTP` run: the cache lookup and hit, pool
acquisition/release of a browser, the disable-JavaScript page script, the
engine navigation or script-executed fetch, the `setCachedResponse` call, and
the status code written to the client. -/
inductive Event where
  | cacheLookup
  | cacheHit
  | acquire (b : Browser)
  | release (b : Browser)
  | disableJS
  | navigate
  | fetchExec
  | cacheStore
  | respond (status : Int)
  deriving Repr, DecidableEq

/-- The value the fetch script evaluated in the page returns for mutating
methods (the `result` map in ServeHTTP): an optional error message, response
headers, status and body. -/
structure FetchOutcome where
  errorMsg : Option String := none
  headers : List (String × String) := []
  status : Option Int := none
  body : Option String := none
  deriving Repr, DecidableEq

/-- The behavior of the external engine and client connection during one
request: the result of `createBrowser` for the empty-pool case, the
success/failure of each fallible call `ServeHTTP` makes, the page HTML, the
fetch-script value, the page cookies, and whether writing the response
succeeds. -/
structure Behavior where
  created : Option Browser := none
  pageOk : Bool := true
  setUserAgentOk : Bool := true
  evalOnNewDocumentOk : Bool := true
  navigateOk : Bool := true
  waitNavigationOk : Bool := true
  bodyOk : Bool := true
  htmlResult : Option String := none
  fetchResult : Option FetchOutcome := none
  pageCookies : List (String × String) := []
  writeOk : Bool := true
  deriving Repr, DecidableEq

/-- The methods handled by the script-executed fetch branch of `ServeHTTP`. -/
def mutatingMethods : List String := ["POST", "PUT", "DELETE", "PATCH"]

/-- Outcome of the method dispatch (`switch r.Method`) in `ServeHTTP`: an
error return, an early response written directly (405, or 502 on a fetch
error), or captured content/headers/status flowing to the common tail. -/
inductive MethodOutcome where
  | err (msg : String) (events : List Event)
  | earlyRespond (status : Int) (events : List Event)
  | content (body : String) (headers : Headers) (status : Int)
      (events : List Event)

/-- The events recorded by a `MethodOutcome`. -/
def MethodOutcome.events : MethodOutcome → List Event
  | MethodOutcome.err _ evs => evs
  | MethodOutcome.earlyRespond _ evs => evs
  | MethodOutcome.content _ _ _ evs => evs

/-- The method dispatch of `ServeHTTP` (src/unnamed/part_000 lines 429-577).
GET: navigate, wait for the load milestone (the network-idle wait and the
optimizer only log on failure), extract the HTML with content type
`text/html; charset=utf-8`, status 200. POST/PUT/DELETE/PATCH: read the body,
evaluate the fetch script; a script-level error yields an immediate 502,
otherwise headers/status/body come from the script value (status defaults to
200, body to empty). Any other method: immediate 405. -/
def methodStep (h : HeadlessProxy) (r : Request) (bhv : Behavior) :
    MethodOutcome :=
  if r.method = "GET" then
    if bhv.navigateOk = false then
      MethodOutcome.err "failed to navigate" [Event.navigate]
    else if bhv.waitNavigationOk = false then
      MethodOutcome.err "failed to wait for navigation" [Event.navigate]
    else
      match bhv.htmlResult with
      | none => MethodOutcome.err "failed to get page HTML" [Event.navigate]
      | some content =>
        MethodOutcome.content content
          (hSet [] "Content-Type" "text/html; charset=utf-8") 200
          [Event.navigate]
  else if r.method ∈ mutatingMethods then
    if bhv.bodyOk = false then
      MethodOutcome.err "failed to read request body" []
    else
      match bhv.fetchResult with
      | none => MethodOutcome.err "failed to execute fetch" [Event.fetchExec]
      | some fr =>
        match fr.errorMsg with
        | some _ => MethodOutcome.earlyRespond 502 [Event.fetchExec]
        | none =>
          MethodOutcome.content (fr.body.getD "")
            (fr.headers.foldl (fun acc kv => hSet acc kv.1 kv.2) [])
            (fr.status.getD 200) [Event.fetchExec]
  else
    MethodOutcome.earlyRespond 405 []

/-- Result of the part of `ServeHTTP` that runs after a browser has been
acquired: the returned error or written status, the cache afterwards, and the
recorded events. -/
structure StepResult where
  outcome : Except String Int
  cacheAfter : Cache
  events : List Event

/-- The events of the disable-JavaScript step: the navigator-proxy script is
evaluated exactly when `EnableJS` is false. -/
def jsEvents (h : HeadlessProxy) : List Event :=
  if h.EnableJS = false then [Event.disableJS] else []

/-- The body of `ServeHTTP` after browser acquisition (src/unnamed/part_000
lines 350-631): create a page, set the user agent, inject the
navigator-proxy script when JavaScript is disabled, replay cookies (failures
only logged), dispatch on the method, then on the content path translate the
page cookies into `Set-Cookie` headers (cookie attributes beyond name/value
are not modelled), call `setCachedResponse`, and write headers, status and
body. The URL composition, logging and the timeout context do not affect the
modelled state and are omitted. -/
def serveAfterAcquire (digest : String → String) (h : HeadlessProxy)
    (now : Int) (r : Request) (bhv : Behavior) (cache : Cache) : StepResult :=
  if bhv.pageOk = false then
    { outcome := Except.error "failed to create page", cacheAfter := cache,
      events := [] }
  else if bhv.setUserAgentOk = false then
    { outcome := Except.error "failed to set user agent", cacheAfter := cache,
      events := [] }
  else if h.EnableJS = false ∧ bhv.evalOnNewDocumentOk = false then
    { outcome := Except.error "failed to set JavaScript settings",
      cacheAfter := cache, events := jsEvents h }
  else
    match methodStep h r bhv with
    | MethodOutcome.err msg evs =>
      { outcome := Except.error msg, cacheAfter := cache,
        events := jsEvents h ++ evs }
    | MethodOutcome.earlyRespond status evs =>
      { outcome :=
          if bhv.writeOk then Except.ok status
          else Except.error "write error",
        cacheAfter := cache,
        events := jsEvents h ++ evs ++ [Event.respond status] }
    | MethodOutcome.content body headers status evs =>
      let headers2 :=
        if h.ForwardCookies then
          bhv.pageCookies.foldl
            (fun acc c => hAdd acc "Set-Cookie" (c.1 ++ "=" ++ c.2)) headers
        else headers
      let cache2 := setCachedResponse digest h now r body headers2 status
        cache
      { outcome :=
          if bhv.writeOk then Except.ok status
          else Except.error "failed to write response",
        cacheAfter := cache2,
        events := jsEvents h ++ evs ++ [Event.cacheStore,
          Event.respond status] }

/-- Result of one full `ServeHTTP` run: error or written status, the pool,
closed browsers and cache afterwards, and the recorded events. -/
structure ServeResult where
  outcome : Except String Int
  poolAfter : List Browser
  closed : List Browser
  cacheAfter : Cache
  events : List Event

/-- `ServeHTTP` (src/unnamed/part_000 lines 319-632): check the cache first
and serve a hit directly; otherwise acquire a browser (error return when the
pool is empty and creation fails), run the pipeline, and - via the deferred
`returnBrowser` - release the acquired browser on every exit path. -/
def ServeHTTP (digest : String → String) (h : HeadlessProxy) (now : Int)
    (r : Request) (bhv : Behavior) (pool : List Browser) (cache : Cache) :
    ServeResult :=
  match getCachedResponse digest h now r cache with
  | some (_, _, statusCode) =>
    { outcome :=
        if bhv.writeOk then Except.ok statusCode
        else Except.error "write error",
      poolAfter := pool, closed := [], cacheAfter := cache,
      events := [Event.cacheLookup, Event.cacheHit,
        Event.respond statusCode] }
  | none =>
    let acq := getBrowser pool bhv.created
    match acq.1 with
    | none =>
      { outcome := Except.error "failed to get browser from pool",
        poolAfter := acq.2, closed := [], cacheAfter := cache,
        events := [Event.cacheLookup] }
    | some b =>
      let step := serveAfterAcquire digest h now r bhv cache
      let ret := returnBrowser h.MaxBrowsers acq.2 b
      { outcome := step.outcome, poolAfter := ret.1, closed := ret.2,
        cacheAfter := step.cacheAfter,
        events := [Event.cacheLookup, Event.acquire b] ++ step.events ++
          [Event.release b] }

/-- True exactly on pool events (`acquire`/`release`). -/
def isPoolEvent : Event → Bool
  | Event.acquire _ => true
  | Event.release _ => true
  | _ => false

/-- True exactly on `release` events. -/
def isReleaseEvent : Event → Bool
  | Event.release _ => true
  | _ => false

/-- True exactly on the engine events recorded by the method dispatch. -/
def isEngineEvent : Event → Bool
  | Event.navigate => true
  | Event.fetchExec => true
  | _ => false

/-- Go slice expression `content[:n]` on a byte slice whose capacity equals
its length: defined only when `n ≤ len(content)`; `none` models the
out-of-range panic. -/
def goSliceTo (content : List UInt8) (n : Nat) : Option (List UInt8) :=
  if n ≤ content.length then some (content.take n) else none

/-- Byte-level substring search: Go `strings.Contains(string(bs), pat)` for
an ASCII pattern (Go strings compare byte-wise). -/
def bytesContain (pat : List UInt8) : List UInt8 → Bool
  | [] => pat.isEmpty
  | b :: rest => pat.isPrefixOf (b :: rest) || bytesContain pat rest

/-- The ASCII byte patterns searched by `detectContentType`: `"<html"`,
`"{"`, `"body"`, `"font"`, `"margin"`, `"function"`, `"var "`, `"const "`,
`"let "`. -/
def htmlPat : List UInt8 := [60, 104, 116, 109, 108]

def bracePat : List UInt8 := [123]

def bodyPat : List UInt8 := [98, 111, 100, 121]

def fontPat : List UInt8 := [102, 111, 110, 116]

def marginPat : List UInt8 := [109, 97, 114, 103, 105, 110]

def funcPat : List UInt8 := [102, 117, 110, 99, 116, 105, 111, 110]

def varPat : List UInt8 := [118, 97, 114, 32]

def constPat : List UInt8 := [99, 111, 110, 115, 116, 32]

def letPat : List UInt8 := [108, 101, 116, 32]

/-- `detectContentType` (src/utils.go lines 50-87). `sniff` stands for the
library call `http.DetectContentType`. When the sniffed type is
`text/plain; charset=utf-8` the function refines it: a first byte `{` or `[`
means JSON; a first byte `<` means HTML or XML depending on whether the first
100 bytes contain `<html`; otherwise CSS and JavaScript keyword checks run on
the first 100 bytes. Every branch that slices `content[:100]` is partial:
`none` models the out-of-range panic on inputs shorter than 100 bytes. -/
def detectContentType (sniff : List UInt8 → String) (content : List UInt8) :
    Option String :=
  let contentType := sniff content
  if contentType = "text/plain; charset=utf-8" then
    if 0 < content.length ∧
        (content.head? = some 123 ∨ content.head? = some 91) then
      some "application/json; charset=utf-8"
    else if 0 < content.length ∧ content.head? = some 60 then
      match goSliceTo content 100 with
      | none => none
      | some first100 =>
        if bytesContain htmlPat first100 = true then
          some "text/html; charset=utf-8"
        else some "application/xml; charset=utf-8"
    else
      match goSliceTo content 100 with
      | none => none
      | some first100 =>
        if bytesContain bracePat first100 = true ∧
            (bytesContain bodyPat first100 = true ∨
             bytesContain fontPat first100 = true ∨
             bytesContain marginPat first100 = true) then
          some "text/css; charset=utf-8"
        else if bytesContain funcPat first100 = true ∨
            bytesContain varPat first100 = true ∨
            bytesContain constPat first100 = true ∨
            bytesContain letPat first100 = true then
          some "application/javascript; charset=utf-8"
        else some contentType
  else some contentType

/-- The conditional fingerprint segment a header contributes: empty when the
header value is empty, otherwise the tag followed by the value. -/
def condSeg (p v : String) : String := if v = "" then "" else p ++ v

/-- The cookie segment of the fingerprint string. -/
def cookieSeg (h : HeadlessProxy) (r : Request) : String :=
  if h.ForwardCookies then
    if r.cookies.map (fun c => c.1 ++ "=" ++ c.2) ≠ [] then
      "|cookies:" ++
        String.intercalate "&" (r.cookies.map (fun c => c.1 ++ "=" ++ c.2))
    else ""
  else ""

/-- C1: for every request whose method is POST, PUT, DELETE or PATCH,
`getCachedResponse` misses and `setCachedResponse` leaves the cache map
unchanged. -/
theorem cache_excludes_mutating_methods (digest : String → String)
    (h : HeadlessProxy) (now : Int) (r : Request) (content : String)
    (headers : Headers) (statusCode : Int) (cache : Cache)
    (hm : r.method = "POST" ∨ r.method = "PUT" ∨ r.method = "DELETE" ∨
      r.method = "PATCH") :
    getCachedResponse digest h now r cache = none ∧
    setCachedResponse digest h now r content headers statusCode cache =
      cache := by
  have hne : r.method ≠ "GET" := by
    rcases hm with hm | hm | hm | hm <;> simp [hm]
  constructor
  · unfold getCachedResponse
    split
    · rfl
    · simp [getCacheKey, hne]
  · unfold setCachedResponse
    split
    · rfl
    · simp [hne]

/-- Witness for C1 at a concrete POST request and non-empty cache. -/
theorem cache_excludes_mutating_methods_witness :
    getCachedResponse (fun s => s) { CacheTTL := 60 } 0
        { method := "POST", url := "/x", header := [], cookies := [] }
        [("k", { content := "c", headers := [], statusCode := 200,
                 expires := 100 })] = none ∧
    setCachedResponse (fun s => s) { CacheTTL := 60 } 0
        { method := "POST", url := "/x", header := [], cookies := [] }
        "body" [] 200
        [("k", { content := "c", headers := [], statusCode := 200,
                 expires := 100 })] =
      [("k", { content := "c", headers := [], statusCode := 200,
               expires := 100 })] :=
  cache_excludes_mutating_methods (fun s => s) { CacheTTL := 60 } 0
    { method := "POST", url := "/x", header := [], cookies := [] }
    "body" [] 200
    [("k", { content := "c", headers := [], statusCode := 200,
             expires := 100 })]
    (Or.inl rfl)

/-- C2: `setCachedResponse` is a no-op unless caching is enabled, the method
is GET and the status is in [200,300); and a response whose headers carry
`Cache-Control: no-store` or `no-cache` is never stored. -/
theorem setCachedResponse_noop_conditions (digest : String → String)
    (h : HeadlessProxy) (now : Int) (r : Request) (content : String)
    (headers : Headers) (statusCode : Int) (cache : Cache) :
    (¬(0 < h.CacheTTL ∧ r.method = "GET" ∧ 200 ≤ statusCode ∧
        statusCode < 300) →
      setCachedResponse digest h now r content headers statusCode cache =
        cache) ∧
    ((goContains (hGet headers "Cache-Control") "no-store" = true ∨
      goContains (hGet headers "Cache-Control") "no-cache" = true) →
      setCachedResponse digest h now r content headers statusCode cache =
        cache) := by
  constructor
  · intro hno
    unfold setCachedResponse
    split
    · rfl
    · rename_i hfirst
      push_neg at hfirst
      obtain ⟨httl, hlow, hhigh⟩ := hfirst
      split
      · rfl
      · rename_i hmeth
        push_neg at hmeth
        exact absurd ⟨by omega, hmeth, hlow, by omega⟩ hno
  · intro hcc
    have hccne : hGet headers "Cache-Control" ≠ "" := by
      have h1 : goContains "" "no-store" = false := by decide
      have h2 : goContains "" "no-cache" = false := by decide
      intro he
      rw [he] at hcc
      rcases hcc with hcc | hcc
      · rw [h1] at hcc; exact Bool.noConfusion hcc
      · rw [h2] at hcc; exact Bool.noConfusion hcc
    unfold setCachedResponse
    split
    · rfl
    · split
      · rfl
      · dsimp only
        split
        · rfl
        · split
          · rfl
          · rename_i hcond
            exact absurd ⟨hccne, hcc⟩ hcond

/-- Witness for C2: a 404 response is not stored, and a 200 GET response with
`Cache-Control: no-store` is not stored. -/
theorem setCachedResponse_noop_conditions_witness :
    setCachedResponse (fun s => s) { CacheTTL := 60 } 0
        { method := "GET", url := "/x", header := [], cookies := [] }
        "body" [] 404 [] = [] ∧
    setCachedResponse (fun s => s) { CacheTTL := 60 } 0
        { method := "GET", url := "/x", header := [], cookies := [] }
        "body" [("Cache-Control", ["no-store"])] 200 [] = [] :=
  ⟨(setCachedResponse_noop_conditions (fun s => s) { CacheTTL := 60 } 0
      { method := "GET", url := "/x", header := [], cookies := [] }
      "body" [] 404 []).1 (by decide),
   (setCachedResponse_noop_conditions (fun s => s) { CacheTTL := 60 } 0
      { method := "GET", url := "/x", header := [], cookies := [] }
      "body" [("Cache-Control", ["no-store"])] 200 []).2
     (Or.inl (by decide))⟩

/-- Helper: `runPoolOps` preserves the upper size bound. -/
theorem runPoolOps_length_le (maxBrowsers : Int) :
    ∀ (ops : List PoolOp) (pool : List Browser),
      (pool.length : Int) ≤ maxBrowsers →
      ((runPoolOps maxBrowsers ops pool).length : Int) ≤ maxBrowsers := by
  intro ops
  induction ops with
  | nil => intro pool hle; exact hle
  | cons op ops ih =>
    intro pool hle
    cases op with
    | get created =>
      apply ih
      unfold getBrowser
      split
      · exact hle
      · have h1 : pool.dropLast.length ≤ pool.length := by
          rw [List.length_dropLast]; omega
        exact le_trans (Nat.cast_le.mpr h1) hle
    | put b =>
      apply ih
      unfold returnBrowser
      split
      · exact hle
      · rename_i hlt
        push_neg at hlt
        simp only [List.length_append, List.length_cons, List.length_nil]
        push_cast
        omega

/-- C4: starting from any pool of size at most `MaxBrowsers`, every sequence
of `getBrowser`/`returnBrowser` operations keeps the pool size non-negative
and at most `MaxBrowsers`; and a `returnBrowser` against a pool already at
capacity leaves the pool unchanged and closes the surplus browser instead of
retaining it. -/
theorem pool_size_bounded (maxBrowsers : Int) (pool : List Browser)
    (hle : (pool.length : Int) ≤ maxBrowsers) :
    (∀ ops : List PoolOp,
        0 ≤ ((runPoolOps maxBrowsers ops pool).length : Int) ∧
        ((runPoolOps maxBrowsers ops pool).length : Int) ≤ maxBrowsers) ∧
    (∀ (ops : List PoolOp) (b : Browser),
        maxBrowsers ≤ ((runPoolOps maxBrowsers ops pool).length : Int) →
        returnBrowser maxBrowsers (runPoolOps maxBrowsers ops pool) b =
          (runPoolOps maxBrowsers ops pool, [b])) := by
  constructor
  · intro ops
    constructor
    · positivity
    · exact runPoolOps_length_le maxBrowsers ops pool hle
  · intro ops b hcap
    unfold returnBrowser
    rw [if_pos hcap]

/-- Witness for C4: max size 1, initial pool of one browser, a release (which
closes the surplus) followed by an acquisition; and a release at capacity. -/
theorem pool_size_bounded_witness :
    (0 ≤ ((runPoolOps 1 [PoolOp.put 4, PoolOp.get none] [3]).length : Int) ∧
     ((runPoolOps 1 [PoolOp.put 4, PoolOp.get none] [3]).length : Int) ≤ 1) ∧
    returnBrowser 1 (runPoolOps 1 [] [3]) 4 = (runPoolOps 1 [] [3], [4]) :=
  ⟨(pool_size_bounded 1 [3] (by decide)).1 [PoolOp.put 4, PoolOp.get none],
   (pool_size_bounded 1 [3] (by decide)).2 [] 4 (by decide)⟩

/-- C8: releasing a browser below capacity and then acquiring yields that same
browser with the rest of the pool unchanged (most-recently-returned first),
and acquiring from an empty pool hands out the engine-created browser. -/
theorem pool_lifo_acquire (maxBrowsers : Int) (pool : List Browser)
    (b : Browser) (created : Option Browser)
    (hlt : (pool.length : Int) < maxBrowsers) :
    getBrowser (returnBrowser maxBrowsers pool b).1 created = (some b, pool) ∧
    getBrowser [] created = (created, []) := by
  constructor
  · have hret : (returnBrowser maxBrowsers pool b).1 = pool ++ [b] := by
      unfold returnBrowser
      rw [if_neg (by omega)]
    rw [hret]
    unfold getBrowser
    rw [if_neg (by simp), List.getLast?_concat, List.dropLast_concat]
  · rfl

/-- Witness for C8 at a one-browser pool below its capacity of two. -/
theorem pool_lifo_acquire_witness :
    getBrowser (returnBrowser 2 [7] 9).1 none = (some 9, [7]) ∧
    getBrowser ([] : List Browser) none = (none, []) :=
  pool_lifo_acquire 2 [7] 9 none (by decide)

/-- Helper: one health cycle never changes the pool size. -/
theorem checkBrowsersHealthAux_length (healthy : Browser → Bool)
    (create : Nat → Option Browser) :
    ∀ (pool : List Browser) (i : Nat),
      (checkBrowsersHealthAux healthy create i pool).pool.length =
        pool.length := by
  intro pool
  induction pool with
  | nil => intro i; rfl
  | cons b rest ih =>
    intro i
    simp only [checkBrowsersHealthAux]
    split
    · simp [ih (i + 1)]
    · split <;> simp [ih (i + 1)]

/-- Helper: slot-wise characterization of one health cycle. -/
theorem checkBrowsersHealthAux_pool_get (healthy : Browser → Bool)
    (create : Nat → Option Browser) :
    ∀ (pool : List Browser) (i j : Nat),
      (checkBrowsersHealthAux healthy create i pool).pool[j]? =
        (pool[j]?).map
          (fun b => if healthy b then b else (create (i + j)).getD b) := by
  intro pool
  induction pool with
  | nil => intro i j; simp [checkBrowsersHealthAux]
  | cons b rest ih =>
    intro i j
    cases j with
    | zero =>
      simp only [checkBrowsersHealthAux]
      split
      · rename_i hh
        simp [hh]
      · rename_i hh
        rw [Bool.not_eq_true] at hh
        cases hc : create i <;> simp [hh, hc]
    | succ j =>
      simp only [checkBrowsersHealthAux]
      have heq : i + 1 + j = i + (j + 1) := by omega
      split
      · simp [ih (i + 1) j, heq]
      · split <;> simp [ih (i + 1) j, heq]

/-- Helper: the browsers closed by one health cycle are exactly the unhealthy
members, in pool order. -/
theorem checkBrowsersHealthAux_closed (healthy : Browser → Bool)
    (create : Nat → Option Browser) :
    ∀ (pool : List Browser) (i : Nat),
      (checkBrowsersHealthAux healthy create i pool).closed =
        pool.filter (fun b => !(healthy b)) := by
  intro pool
  induction pool with
  | nil => intro i; rfl
  | cons b rest ih =>
    intro i
    simp only [checkBrowsersHealthAux]
    split
    · rename_i hh
      simp [List.filter_cons, hh, ih (i + 1)]
    · rename_i hh
      rw [Bool.not_eq_true] at hh
      split <;> simp [List.filter_cons, hh, ih (i + 1)]

/-- C7 (amended): a health cycle closes every unhealthy browser and, when
`createBrowser` succeeds, replaces it in place, so the pool size is unchanged;
when creation fails, the closed browser remains in its slot (the slot is not
left empty), and the pool size is still unchanged. -/
theorem checkBrowsersHealth_characterization (healthy : Browser → Bool)
    (create : Nat → Option Browser) (pool : List Browser) :
    (checkBrowsersHealth healthy create pool).pool.length = pool.length ∧
    (∀ j : Nat,
      (checkBrowsersHealth healthy create pool).pool[j]? =
        (pool[j]?).map
          (fun b => if healthy b then b else (create j).getD b)) ∧
    (checkBrowsersHealth healthy create pool).closed =
      pool.filter (fun b => !(healthy b)) := by
  refine ⟨checkBrowsersHealthAux_length healthy create pool 0, ?_,
    checkBrowsersHealthAux_closed healthy create pool 0⟩
  intro j
  have h := checkBrowsersHealthAux_pool_get healthy create pool 0 j
  simpa using h

/-- Counterexample to C7 as stated: one unhealthy browser (id 7) and a
failing replacement creation - the closed browser 7 stays in its pool slot,
so the slot is not left empty and the closed session is retained. -/
theorem checkBrowsersHealth_failed_create_cex :
    (checkBrowsersHealth (fun _ => false) (fun _ => none) [7]).pool = [7] ∧
    (checkBrowsersHealth (fun _ => false) (fun _ => none) [7]).closed =
      [7] := by
  decide

/-- Helper: the method dispatch only records engine events. -/
theorem methodStep_events_engine (h : HeadlessProxy) (r : Request)
    (bhv : Behavior) :
    ∀ e ∈ (methodStep h r bhv).events, isEngineEvent e = true := by
  intro e he
  unfold methodStep at he
  repeat' split at he
  all_goals simp_all [MethodOutcome.events, isEngineEvent]

/-- Helper: classification of an event recorded by `jsEvents`. -/
theorem jsEvents_spec (h : HeadlessProxy) :
    ∀ e ∈ jsEvents h, e = Event.disableJS ∧ h.EnableJS = false := by
  intro e he
  unfold jsEvents at he
  split at he <;> simp_all

/-- Helper: any event of the allowed post-acquisition kinds is not a pool
event and, when JavaScript is enabled, is not `disableJS`. -/
theorem stepEvent_ok (h : HeadlessProxy) (e : Event)
    (hcases : (e = Event.disableJS ∧ h.EnableJS = false) ∨
      isEngineEvent e = true ∨ e = Event.cacheStore ∨
      (∃ st, e = Event.respond st)) :
    isPoolEvent e = false ∧ (h.EnableJS = true → e ≠ Event.disableJS) := by
  rcases hcases with ⟨he, hjs⟩ | he | he | ⟨st, he⟩
  · subst he
    refine ⟨rfl, fun ht => ?_⟩
    rw [ht] at hjs
    exact absurd hjs (by simp)
  · cases e <;> simp_all [isEngineEvent, isPoolEvent]
  · subst he
    exact ⟨rfl, fun _ heq => Event.noConfusion heq⟩
  · subst he
    exact ⟨rfl, fun _ heq => Event.noConfusion heq⟩

/-- Helper: no event recorded between acquisition and release is a pool
event, and none is `disableJS` when JavaScript is enabled. -/
theorem serveAfterAcquire_events_shape (digest : String → String)
    (h : HeadlessProxy) (now : Int) (r : Request) (bhv : Behavior)
    (cache : Cache) :
    ∀ e ∈ (serveAfterAcquire digest h now r bhv cache).events,
      isPoolEvent e = false ∧
        (h.EnableJS = true → e ≠ Event.disableJS) := by
  intro e he
  apply stepEvent_ok
  unfold serveAfterAcquire at he
  split at he
  · simp at he
  · split at he
    · simp at he
    · split at he
      · exact Or.inl (jsEvents_spec h e he)
      · split at he
        · rename_i msg evs heq
          dsimp only at he
          rcases List.mem_append.mp he with he | he
          · exact Or.inl (jsEvents_spec h e he)
          · refine Or.inr (Or.inl ?_)
            have := methodStep_events_engine h r bhv e
            rw [heq] at this
            exact this he
        · rename_i status evs heq
          dsimp only at he
          rw [List.append_assoc, List.mem_append] at he
          rcases he with he | he
          · exact Or.inl (jsEvents_spec h e he)
          · rcases List.mem_append.mp he with he | he
            · refine Or.inr (Or.inl ?_)
              have := methodStep_events_engine h r bhv e
              rw [heq] at this
              exact this he
            · simp only [List.mem_singleton] at he
              exact Or.inr (Or.inr (Or.inr ⟨status, he⟩))
        · rename_i body headers status evs heq
          dsimp only at he
          rw [List.append_assoc, List.mem_append] at he
          rcases he with he | he
          · exact Or.inl (jsEvents_spec h e he)
          · rcases List.mem_append.mp he with he | he
            · refine Or.inr (Or.inl ?_)
              have := methodStep_events_engine h r bhv e
              rw [heq] at this
              exact this he
            · simp only [List.mem_cons, List.mem_singleton,
                List.not_mem_nil, or_false] at he
              rcases he with he | he
              · exact Or.inr (Or.inr (Or.inl he))
              · exact Or.inr (Or.inr (Or.inr ⟨status, he⟩))

/-- Helper: a release event is a pool event. -/
theorem release_is_pool (e : Event) (hr : isReleaseEvent e = true) :
    isPoolEvent e = true := by
  cases e <;> simp_all [isReleaseEvent, isPoolEvent]

/-- Helper: the post-acquisition pipeline records no release event. -/
theorem serveAfterAcquire_countP_release (digest : String → String)
    (h : HeadlessProxy) (now : Int) (r : Request) (bhv : Behavior)
    (cache : Cache) :
    (serveAfterAcquire digest h now r bhv cache).events.countP
      isReleaseEvent = 0 := by
  rw [List.countP_eq_zero]
  intro e he hre
  have hp := (serveAfterAcquire_events_shape digest h now r bhv cache e he).1
  rw [release_is_pool e hre] at hp
  exact Bool.noConfusion hp

/-- Helper: any non-GET request misses the cache. -/
theorem getCachedResponse_non_get (digest : String → String)
    (h : HeadlessProxy) (now : Int) (r : Request) (cache : Cache)
    (hng : r.method ≠ "GET") :
    getCachedResponse digest h now r cache = none := by
  unfold getCachedResponse
  split
  · rfl
  · simp [getCacheKey, hng]

/-- C5: on every exit path of `ServeHTTP` on which a browser was acquired -
whatever the configuration and whatever engine step fails afterwards - the
run records exactly one release, and it releases the acquired browser: no
leak and no double release. -/
theorem session_released_exactly_once (digest : String → String)
    (h : HeadlessProxy) (now : Int) (r : Request) (bhv : Behavior)
    (pool : List Browser) (cache : Cache) (b : Browser)
    (hacq : Event.acquire b ∈
      (ServeHTTP digest h now r bhv pool cache).events) :
    (ServeHTTP digest h now r bhv pool cache).events.countP isReleaseEvent
        = 1 ∧
    Event.release b ∈ (ServeHTTP digest h now r bhv pool cache).events := by
  have hshape := serveAfterAcquire_events_shape digest h now r bhv cache
  have hzero := serveAfterAcquire_countP_release digest h now r bhv cache
  revert hacq
  unfold ServeHTTP
  split
  · intro hacq
    simp at hacq
  · dsimp only
    split
    · intro hacq
      simp at hacq
    · rename_i b2 heq
      intro hacq
      simp at hacq
      have hb2 : b = b2 := by
        rcases hacq with hacq | hacq <;>
          first
          | exact hacq
          | exact hacq.symm
          | (exfalso
             have hp := (hshape _ hacq).1
             simp [isPoolEvent] at hp)
      subst hb2
      constructor
      · simp [List.countP_append, List.countP_cons, isReleaseEvent, hzero]
      · simp

/-- Witness for C5: a GET request on a one-browser pool whose navigation
fails; browser 3 is acquired and released exactly once. -/
theorem session_released_exactly_once_witness :
    (ServeHTTP (fun s => s) { CacheTTL := 0, EnableJS := true } 0
        { method := "GET", url := "/x", header := [], cookies := [] }
        { navigateOk := false } [3] []).events.countP isReleaseEvent = 1 ∧
    Event.release 3 ∈
      (ServeHTTP (fun s => s) { CacheTTL := 0, EnableJS := true } 0
        { method := "GET", url := "/x", header := [], cookies := [] }
        { navigateOk := false } [3] []).events :=
  session_released_exactly_once (fun s => s)
    { CacheTTL := 0, EnableJS := true } 0
    { method := "GET", url := "/x", header := [], cookies := [] }
    { navigateOk := false } [3] [] 3 (by decide)

/-- C3 (amended): for a request whose method is none of
GET/POST/PUT/DELETE/PATCH, when a browser is obtained and the page set-up
steps succeed, `ServeHTTP` responds 405 Method Not Allowed and never stores
to the cache (the cache is unchanged); but the 405 is not immediate: the run
performs the cache lookup first and acquires a session before the method
dispatch, releasing it exactly once via the deferred release. -/
theorem serveHTTP_unsupported_method_405 (digest : String → String)
    (h : HeadlessProxy) (now : Int) (r : Request) (bhv : Behavior)
    (pool : List Browser) (cache : Cache) (b : Browser)
    (hm : r.method ∉ ["GET", "POST", "PUT", "DELETE", "PATCH"])
    (hb : (getBrowser pool bhv.created).1 = some b)
    (hpage : bhv.pageOk = true) (hua : bhv.setUserAgentOk = true)
    (hjs : h.EnableJS = false → bhv.evalOnNewDocumentOk = true) :
    Event.respond 405 ∈ (ServeHTTP digest h now r bhv pool cache).events ∧
    (ServeHTTP digest h now r bhv pool cache).cacheAfter = cache ∧
    Event.cacheStore ∉ (ServeHTTP digest h now r bhv pool cache).events ∧
    Event.cacheLookup ∈ (ServeHTTP digest h now r bhv pool cache).events ∧
    Event.acquire b ∈ (ServeHTTP digest h now r bhv pool cache).events ∧
    (ServeHTTP digest h now r bhv pool cache).events.countP isReleaseEvent
      = 1 := by
  have hng : r.method ≠ "GET" := by
    intro he
    exact hm (by simp [he])
  have hnm : r.method ∉ mutatingMethods := by
    intro hmem
    apply hm
    simp only [mutatingMethods, List.mem_cons, List.mem_singleton,
      List.not_mem_nil, or_false] at hmem
    simp only [List.mem_cons, List.mem_singleton, List.not_mem_nil, or_false]
    tauto
  have hlookup := getCachedResponse_non_get digest h now r cache hng
  have hms : methodStep h r bhv = MethodOutcome.earlyRespond 405 [] := by
    unfold methodStep
    rw [if_neg hng, if_neg hnm]
  have hstep : serveAfterAcquire digest h now r bhv cache =
      { outcome :=
          if bhv.writeOk then Except.ok 405 else Except.error "write error",
        cacheAfter := cache,
        events := jsEvents h ++ [] ++ [Event.respond 405] } := by
    unfold serveAfterAcquire
    rw [if_neg (by simp [hpage]), if_neg (by simp [hua]), if_neg ?hcond, hms]
    case hcond =>
      rintro ⟨hejs, heval⟩
      rw [hjs hejs] at heval
      exact Bool.noConfusion heval
  unfold ServeHTTP
  rw [hlookup]
  dsimp only
  rw [hb]
  dsimp only
  rw [hstep]
  cases hEJ : h.EnableJS <;>
    simp [jsEvents, hEJ, isReleaseEvent, List.countP_append,
      List.countP_cons]

/-- Witness for C3 (amended) at a concrete TRACE request against a
one-browser pool. -/
theorem serveHTTP_unsupported_method_405_witness :
    Event.respond 405 ∈
      (ServeHTTP (fun s => s) { CacheTTL := 0, EnableJS := true, MaxBrowsers := 5 }
        0 { method := "TRACE", url := "/x", header := [], cookies := [] }
        {} [5] []).events ∧
    (ServeHTTP (fun s => s) { CacheTTL := 0, EnableJS := true, MaxBrowsers := 5 }
        0 { method := "TRACE", url := "/x", header := [], cookies := [] }
        {} [5] []).cacheAfter = [] ∧
    Event.cacheStore ∉
      (ServeHTTP (fun s => s) { CacheTTL := 0, EnableJS := true, MaxBrowsers := 5 }
        0 { method := "TRACE", url := "/x", header := [], cookies := [] }
        {} [5] []).events ∧
    Event.cacheLookup ∈
      (ServeHTTP (fun s => s) { CacheTTL := 0, EnableJS := true, MaxBrowsers := 5 }
        0 { method := "TRACE", url := "/x", header := [], cookies := [] }
        {} [5] []).events ∧
    Event.acquire 5 ∈
      (ServeHTTP (fun s => s) { CacheTTL := 0, EnableJS := true, MaxBrowsers := 5 }
        0 { method := "TRACE", url := "/x", header := [], cookies := [] }
        {} [5] []).events ∧
    (ServeHTTP (fun s => s) { CacheTTL := 0, EnableJS := true, MaxBrowsers := 5 }
        0 { method := "TRACE", url := "/x", header := [], cookies := [] }
        {} [5] []).events.countP isReleaseEvent = 1 :=
  serveHTTP_unsupported_method_405 (fun s => s)
    { CacheTTL := 0, EnableJS := true, MaxBrowsers := 5 } 0
    { method := "TRACE", url := "/x", header := [], cookies := [] }
    {} [5] [] 5 (by decide) (by decide) rfl rfl (by decide)

/-- Counterexample to C3 as stated: on a concrete TRACE request `ServeHTTP`
does interact with the cache (a lookup is recorded) and does acquire a
session from the pool before answering 405; and with an empty pool the
acquisition creates a browser that the deferred release then adds to the
pool, so the pool state is not unchanged either. -/
theorem serveHTTP_trace_cex :
    Event.acquire 5 ∈
      (ServeHTTP (fun s => s) { CacheTTL := 0, EnableJS := true, MaxBrowsers := 5 }
        0 { method := "TRACE", url := "/y", header := [], cookies := [] }
        {} [5] []).events ∧
    Event.cacheLookup ∈
      (ServeHTTP (fun s => s) { CacheTTL := 0, EnableJS := true, MaxBrowsers := 5 }
        0 { method := "TRACE", url := "/y", header := [], cookies := [] }
        {} [5] []).events ∧
    (ServeHTTP (fun s => s) { CacheTTL := 0, EnableJS := true, MaxBrowsers := 5 }
        0 { method := "TRACE", url := "/y", header := [], cookies := [] }
        { created := some 9 } [] []).poolAfter = [9] := by
  decide

/-- Helper: with JavaScript enabled, no run of `ServeHTTP` records a
`disableJS` event. -/
theorem serveHTTP_no_disableJS (digest : String → String)
    (h : HeadlessProxy) (now : Int) (r : Request) (bhv : Behavior)
    (pool : List Browser) (cache : Cache) (hjs : h.EnableJS = true) :
    (ServeHTTP digest h now r bhv pool cache).events.countP
      (fun e => e == Event.disableJS) = 0 := by
  have hshape := serveAfterAcquire_events_shape digest h now r bhv cache
  rw [List.countP_eq_zero]
  intro e he hbe
  rw [beq_iff_eq] at hbe
  subst hbe
  revert he
  unfold ServeHTTP
  split
  · intro he
    simp at he
  · dsimp only
    split
    · intro he
      simp at he
    · intro he
      simp at he
      exact ((hshape _ he).2 hjs) rfl

/-- C9: after `Provision` the `EnableJS` field is always true, whatever was
configured, so the disable-JavaScript branch of `ServeHTTP` is unreachable
for a provisioned handler: no run records a `disableJS` event. -/
theorem provision_forces_enable_js (h : HeadlessProxy)
    (digest : String → String) (now : Int) (r : Request) (bhv : Behavior)
    (pool : List Browser) (cache : Cache) :
    (Provision h).EnableJS = true ∧
    (ServeHTTP digest (Provision h) now r bhv pool cache).events.countP
      (fun e => e == Event.disableJS) = 0 := by
  have h1 : (Provision h).EnableJS = true := by
    unfold Provision
    dsimp only
    repeat' split
    all_goals simp_all
  exact ⟨h1,
    serveHTTP_no_disableJS digest (Provision h) now r bhv pool cache h1⟩

/-- C10: `detectContentType` is not total - for every byte slice shorter
than 100 bytes whose sniffed type is `text/plain; charset=utf-8` and whose
first byte is neither `\x7b` nor `[` (bytes 123 and 91), it evaluates the
out-of-range slice `content[:100]` (modelled as `none`, the panic); for
every input of at least 100 bytes it returns a content-type string. -/
theorem detectContentType_partiality (sniff : List UInt8 → String)
    (content : List UInt8) :
    (content.length < 100 →
      sniff content = "text/plain; charset=utf-8" →
      (∀ b, content.head? = some b → b ≠ 123 ∧ b ≠ 91) →
      detectContentType sniff content = none) ∧
    (100 ≤ content.length →
      (detectContentType sniff content).isSome = true) := by
  constructor
  · intro hlen hplain hhead
    have hslice : goSliceTo content 100 = none := by
      unfold goSliceTo
      rw [if_neg (by omega)]
    unfold detectContentType
    rw [if_pos hplain, if_neg ?hjson]
    case hjson =>
      rintro ⟨hpos, hbr | hbr⟩
      · exact (hhead 123 hbr).1 rfl
      · exact (hhead 91 hbr).2 rfl
    split
    · rw [hslice]
    · rw [hslice]
  · intro hlen
    have hslice : goSliceTo content 100 = some (content.take 100) := by
      unfold goSliceTo
      rw [if_pos (by omega)]
    unfold detectContentType
    simp only [hslice]
    repeat' split
    all_goals simp

/-- Witness for C10: the one-byte input `a` (sniffed as plain text) panics,
and a 100-byte input is handled totally. -/
theorem detectContentType_partiality_witness :
    detectContentType (fun _ => "text/plain; charset=utf-8") [97] = none ∧
    (detectContentType (fun _ => "text/plain; charset=utf-8")
        (List.replicate 100 97)).isSome = true :=
  ⟨(detectContentType_partiality (fun _ => "text/plain; charset=utf-8")
      [97]).1 (by decide) rfl (by decide),
   (detectContentType_partiality (fun _ => "text/plain; charset=utf-8")
      (List.replicate 100 97)).2 (by simp)⟩

/-- Helper: left cancellation for string append. -/
theorem strAppendCancelLeft (u s t : String) (h : u ++ s = u ++ t) : s = t := by
  have hd : u.data ++ s.data = u.data ++ t.data := by
    rw [← String.data_append, ← String.data_append, h]
  exact String.ext (List.append_cancel_left hd)

/-- Helper: right cancellation for string append. -/
theorem strAppendCancelRight (s t u : String) (h : s ++ u = t ++ u) :
    s = t := by
  have hd : s.data ++ u.data = t.data ++ u.data := by
    rw [← String.data_append, ← String.data_append, h]
  exact String.ext (List.append_cancel_right hd)

/-- Helper: a conditional append is an append of a conditional segment. -/
theorem condAppend (c : Prop) [Decidable c] (s t : String) :
    (if c then s ++ t else s) = s ++ (if c then t else "") := by
  split <;> simp

/-- Helper: the flipped conditional append. -/
theorem condAppendFlip (c : Prop) [Decidable c] (s t : String) :
    (if c then s else s ++ t) = s ++ (if c then "" else t) := by
  split <;> simp

/-- Helper: normal form of the fingerprint string - the URL, then the
Accept-Language segment, then the User-Agent segment, then the cookie
segment. -/
theorem getCacheKeyString_eq (h : HeadlessProxy) (r : Request) :
    getCacheKeyString h r =
      ((r.url ++
          condSeg ("|" ++ "Accept-Language" ++ ":")
            (hGet r.header "Accept-Language")) ++
        condSeg ("|" ++ "User-Agent" ++ ":") (hGet r.header "User-Agent")) ++
      cookieSeg h r := by
  unfold getCacheKeyString cookieSeg condSeg
  dsimp only [headerAllowList, List.foldl]
  simp only [condAppend, condAppendFlip]

/-- Helper: `condSeg p` is injective for a non-empty tag. -/
theorem condSeg_inj (p : String) (hp : p.length ≠ 0) (v1 v2 : String)
    (h : condSeg p v1 = condSeg p v2) : v1 = v2 := by
  unfold condSeg at h
  split at h <;> split at h
  · rename_i h1 h2
    rw [h1, h2]
  · have hl := congrArg String.length h
    simp [String.length_append] at hl
    omega
  · have hl := congrArg String.length h
    simp [String.length_append] at hl
    omega
  · exact strAppendCancelLeft p v1 v2 h

/-- Helper: the cookie segment depends only on cookie forwarding and the
cookie list. -/
theorem cookieSeg_congr (h : HeadlessProxy) (r1 r2 : Request)
    (hck : h.ForwardCookies = true → r1.cookies = r2.cookies) :
    cookieSeg h r1 = cookieSeg h r2 := by
  unfold cookieSeg
  cases hfc : h.ForwardCookies
  · simp [hfc]
  · rw [hck hfc]

/-- C6 (amended): the fingerprint is deterministic on method, URL, the
allow-listed header values, and - when cookie forwarding is enabled - the
cookie name/value pairs in request order (the code does not sort them); and
for GET requests that agree on everything else, differing in the value of
exactly one allow-listed header yields different keys whenever the digest is
injective on the fingerprints. -/
theorem getCacheKey_fingerprint (digest : String → String)
    (h : HeadlessProxy) (r1 r2 : Request) :
    ((r1.method = r2.method) → (r1.url = r2.url) →
     (∀ k ∈ headerAllowList, hGet r1.header k = hGet r2.header k) →
     (h.ForwardCookies = true → r1.cookies = r2.cookies) →
     getCacheKey digest h r1 = getCacheKey digest h r2) ∧
    (Function.Injective digest →
     r1.method = "GET" → r2.method = "GET" → r1.url = r2.url →
     (h.ForwardCookies = true → r1.cookies = r2.cookies) →
     ((hGet r1.header "User-Agent" = hGet r2.header "User-Agent" ∧
       hGet r1.header "Accept-Language" ≠ hGet r2.header "Accept-Language") ∨
      (hGet r1.header "Accept-Language" = hGet r2.header "Accept-Language" ∧
       hGet r1.header "User-Agent" ≠ hGet r2.header "User-Agent")) →
     getCacheKey digest h r1 ≠ getCacheKey digest h r2) := by
  constructor
  · intro hm hu hh hck
    unfold getCacheKey
    rw [hm]
    split
    · rfl
    · congr 1
      rw [getCacheKeyString_eq, getCacheKeyString_eq, hu,
        hh "Accept-Language" (by simp [headerAllowList]),
        hh "User-Agent" (by simp [headerAllowList]),
        cookieSeg_congr h r1 r2 hck]
  · intro hinj hg1 hg2 hu hck hdiff hkeys
    unfold getCacheKey at hkeys
    rw [if_neg (by simp [hg1]), if_neg (by simp [hg2])] at hkeys
    have hstr := hinj hkeys
    rw [getCacheKeyString_eq, getCacheKeyString_eq, hu,
      cookieSeg_congr h r1 r2 hck] at hstr
    have hstr2 := strAppendCancelRight _ _ _ hstr
    rcases hdiff with ⟨hua, hal⟩ | ⟨hal, hua⟩
    · rw [hua] at hstr2
      have hstr3 := strAppendCancelRight _ _ _ hstr2
      have hstr4 := strAppendCancelLeft _ _ _ hstr3
      exact hal (condSeg_inj _ (by decide) _ _ hstr4)
    · rw [hal] at hstr2
      have hstr3 := strAppendCancelLeft _ _ _ hstr2
      exact hua (condSeg_inj _ (by decide) _ _ hstr3)

/-- Witness for C6 (amended): equal keys for two GET requests whose headers
differ only in binding order, and distinct keys when Accept-Language
differs. -/
theorem getCacheKey_fingerprint_witness :
    getCacheKey (fun s => s) { CacheTTL := 60, ForwardCookies := true }
        { method := "GET", url := "/p", cookies := [("a", "1")],
          header := [("Accept-Language", ["en"]), ("X-Other", ["1"])] } =
      getCacheKey (fun s => s) { CacheTTL := 60, ForwardCookies := true }
        { method := "GET", url := "/p", cookies := [("a", "1")],
          header := [("X-Other", ["2"]), ("Accept-Language", ["en"])] } ∧
    getCacheKey (fun s => s) { CacheTTL := 60, ForwardCookies := true }
        { method := "GET", url := "/p", cookies := [],
          header := [("Accept-Language", ["en"])] } ≠
      getCacheKey (fun s => s) { CacheTTL := 60, ForwardCookies := true }
        { method := "GET", url := "/p", cookies := [],
          header := [("Accept-Language", ["de"])] } :=
  ⟨(getCacheKey_fingerprint (fun s => s)
      { CacheTTL := 60, ForwardCookies := true }
      { method := "GET", url := "/p", cookies := [("a", "1")],
        header := [("Accept-Language", ["en"]), ("X-Other", ["1"])] }
      { method := "GET", url := "/p", cookies := [("a", "1")],
        header := [("X-Other", ["2"]), ("Accept-Language", ["en"])] }).1
    rfl rfl (by decide) (fun _ => rfl),
   (getCacheKey_fingerprint (fun s => s)
      { CacheTTL := 60, ForwardCookies := true }
      { method := "GET", url := "/p", cookies := [],
        header := [("Accept-Language", ["en"])] }
      { method := "GET", url := "/p", cookies := [],
        header := [("Accept-Language", ["de"])] }).2
    (fun _ _ hab => hab) rfl rfl rfl (fun _ => rfl)
    (Or.inl (by decide))⟩

/-- Counterexample to C6 as stated: the code hashes cookies in request order,
not sorted - the same set of cookies in a different order yields a different
fingerprint (shown for the identity digest, which is injective); and two
non-GET requests differing in an allow-listed header value share the key
`""`. -/
theorem getCacheKey_cookie_order_cex :
    Function.Injective (fun s : String => s) ∧
    getCacheKey (fun s => s) { CacheTTL := 60, ForwardCookies := true }
        { method := "GET", url := "/p", header := [],
          cookies := [("a", "1"), ("b", "2")] } ≠
      getCacheKey (fun s => s) { CacheTTL := 60, ForwardCookies := true }
        { method := "GET", url := "/p", header := [],
          cookies := [("b", "2"), ("a", "1")] } ∧
    getCacheKey (fun s => s) { CacheTTL := 60, ForwardCookies := true }
        { method := "POST", url := "/p", header := [("User-Agent", ["x"])],
          cookies := [] } =
      getCacheKey (fun s => s) { CacheTTL := 60, ForwardCookies := true }
        { method := "POST", url := "/p", header := [("User-Agent", ["y"])],
          cookies := [] } :=
  ⟨fun _ _ hab => hab, by decide, by decide⟩

end HeadlessProxySpec

